import Mathlib

/-!
Verification of the Electrolux PO12F A/C codec (`ir_Electrolux.h` /
`ir_Electrolux.cpp`).

The 14-byte command frame (`union ElectroluxPO12FProtocol`, a
`uint8_t raw[14]` overlaid with bit-packed fields) is embedded as a
structure of 14 natural-number bytes.  Bit-packed field reads/writes are
modelled by explicit shift/mask arithmetic on the affected byte:
`getBits b lo w` extracts bits `[lo, lo+w)` of byte `b`, and
`setBits b lo w v` replaces those bits with `v` (taken mod `2^w`, as a
C bitfield assignment does).  Bytes of reachable states are `< 256`;
theorems that need this carry it as a hypothesis.

The field layout, from the union declaration in `ir_Electrolux.h`:
  byte 5  : bits[2]   Power
  byte 6  : bits[0..3] Mode, bit 6 Turbo, bit 7 Follow
  byte 7  : bits[0..3] Temp
  byte 8  : bits[0..2] Fan, bits[3..5] Swing
  byte 9  : OffSleepTimer (all 8 bits)
  byte 13 : Sum (checksum, all 8 bits)

C++ `float` temperature arguments are modelled by `ℚ`: every value the
code manipulates in the relevant range (clamped to [18, 28], offsets up
to 31) is exactly representable in binary floating point when it is a
multiple of 0.5, and `static_cast<uint8_t>` of the non-negative result
truncates, i.e. takes the floor.
-/

namespace ElectroluxPO12F

/-- Length of the state array, `kElectroluxPO12FACStateLength`. -/
def kElectroluxPO12FACStateLength : Nat := 14

/-- `kElectroluxPO12FACDefaultState`: the known-good default frame
(documented in the source as On, Cool, 24C). -/
def kElectroluxPO12FACDefaultState : List Nat :=
  [0x23, 0xCB, 0x26, 0x01, 0x00, 0x24, 0x03, 0x05, 0x02, 0x00, 0x00, 0x1B, 0x03, 0x61]

/-- Native mode value `kElectroluxPO12FACHeat`. -/
def kElectroluxPO12FACHeat : Nat := 1
/-- Native mode value `kElectroluxPO12FACDry`. -/
def kElectroluxPO12FACDry : Nat := 2
/-- Native mode value `kElectroluxPO12FACCool`. -/
def kElectroluxPO12FACCool : Nat := 3
/-- Native mode value `kElectroluxPO12FACFan`. -/
def kElectroluxPO12FACFan : Nat := 7
/-- Native mode value `kElectroluxPO12FACAuto`. -/
def kElectroluxPO12FACAuto : Nat := 8

/-- Native fan speed `kElectroluxPO12FACFanAuto` (0b000). -/
def kElectroluxPO12FACFanAuto : Nat := 0
/-- Native fan speed `kElectroluxPO12FACFanLow` (0b010). -/
def kElectroluxPO12FACFanLow : Nat := 2
/-- Native fan speed `kElectroluxPO12FACFanMed` (0b011). -/
def kElectroluxPO12FACFanMed : Nat := 3
/-- Native fan speed `kElectroluxPO12FACFanHigh` (0b101). -/
def kElectroluxPO12FACFanHigh : Nat := 5
/-- Native fan speed `kElectroluxPO12FACFanEco` (0b001). -/
def kElectroluxPO12FACFanEco : Nat := 1

/-- `kElectroluxPO12FACTempMax` (28.0 degrees Celsius). -/
def kElectroluxPO12FACTempMax : ℚ := 28
/-- `kElectroluxPO12FACTempMin` (18.0 degrees Celsius). -/
def kElectroluxPO12FACTempMin : ℚ := 18

/-- Extract bits `[lo, lo+w)` of byte `b` (a bitfield read). -/
def getBits (b lo w : Nat) : Nat := b / 2 ^ lo % 2 ^ w

/-- Replace bits `[lo, lo+w)` of byte `b` by `v % 2^w` (a bitfield
assignment; the value is reduced mod `2^w` as in C). -/
def setBits (b lo w v : Nat) : Nat :=
  b % 2 ^ lo + v % 2 ^ w * 2 ^ lo + b / 2 ^ (lo + w) * 2 ^ (lo + w)

/-- C++ integer-to-`bool` conversion: nonzero means true. -/
def cBool (n : Nat) : Bool := n != 0

/-- C++ `bool`-to-bitfield conversion: true stores 1, false stores 0. -/
def cNat (b : Bool) : Nat := if b then 1 else 0

/-- The state of `IRElectroluxPO12FAC`: the `uint8_t raw[14]` array of
`union ElectroluxPO12FProtocol`, one field per byte. -/
structure ElectroluxPO12FProtocol where
  b0 : Nat
  b1 : Nat
  b2 : Nat
  b3 : Nat
  b4 : Nat
  b5 : Nat
  b6 : Nat
  b7 : Nat
  b8 : Nat
  b9 : Nat
  b10 : Nat
  b11 : Nat
  b12 : Nat
  b13 : Nat
deriving DecidableEq

/-- The `raw` array view of the state, as a 14-element list. -/
def raw (s : ElectroluxPO12FProtocol) : List Nat :=
  [s.b0, s.b1, s.b2, s.b3, s.b4, s.b5, s.b6, s.b7, s.b8, s.b9, s.b10,
   s.b11, s.b12, s.b13]

/-- Modelled from the spec: `sumBytes` (declared in `IRutils.h`, whose
implementation is not part of the given sources) returns the unsigned
8-bit sum - i.e. the sum modulo 256 - of the first `length` bytes of
the buffer. -/
def sumBytes (state : List Nat) (length : Nat) : Nat :=
  (state.take length).sum % 256

/-- `IRElectroluxPO12FAC::calcChecksum`: sum of all bytes but the last;
0 when `length` is 0. -/
def calcChecksum (state : List Nat) (length : Nat) : Nat :=
  if length ≠ 0 then sumBytes state (length - 1) else 0

/-- `IRElectroluxPO12FAC::validChecksum`: `length > 1` and the last byte
equals `calcChecksum`. -/
def validChecksum (state : List Nat) (length : Nat) : Bool :=
  decide (1 < length) && decide (state.getD (length - 1) 0 = calcChecksum state length)

/-- `IRElectroluxPO12FAC::checksum`: store `calcChecksum` of the raw
array into the `Sum` byte (byte 13) when `length > 1`. -/
def checksum (s : ElectroluxPO12FProtocol) (length : Nat) : ElectroluxPO12FProtocol :=
  if 1 < length then
    { s with b13 := setBits s.b13 0 8 (calcChecksum (raw s) length) }
  else s

/-- `IRElectroluxPO12FAC::stateReset`: copy the default state into the
frame (the prior state is fully overwritten). -/
def stateReset : ElectroluxPO12FProtocol :=
  ⟨0x23, 0xCB, 0x26, 0x01, 0x00, 0x24, 0x03, 0x05, 0x02, 0x00, 0x00, 0x1B, 0x03, 0x61⟩

/-- `IRElectroluxPO12FAC::getRaw`: recompute the checksum (with the
default length, 14), and return the updated state whose `raw` is the
returned buffer. -/
def getRaw (s : ElectroluxPO12FProtocol) : ElectroluxPO12FProtocol :=
  checksum s kElectroluxPO12FACStateLength

/-- `IRElectroluxPO12FAC::setRaw`: `memcpy` of
`min(length, kElectroluxPO12FACStateLength)` bytes from `new_code` into
the frame; later bytes keep their old values.  The source buffer is
modelled as a list read through `getD` (a C caller must supply at least
that many bytes). -/
def setRaw (s : ElectroluxPO12FProtocol) (new_code : List Nat) (length : Nat) :
    ElectroluxPO12FProtocol :=
  { b0 := if 0 < min length kElectroluxPO12FACStateLength then new_code.getD 0 0 else s.b0
    b1 := if 1 < min length kElectroluxPO12FACStateLength then new_code.getD 1 0 else s.b1
    b2 := if 2 < min length kElectroluxPO12FACStateLength then new_code.getD 2 0 else s.b2
    b3 := if 3 < min length kElectroluxPO12FACStateLength then new_code.getD 3 0 else s.b3
    b4 := if 4 < min length kElectroluxPO12FACStateLength then new_code.getD 4 0 else s.b4
    b5 := if 5 < min length kElectroluxPO12FACStateLength then new_code.getD 5 0 else s.b5
    b6 := if 6 < min length kElectroluxPO12FACStateLength then new_code.getD 6 0 else s.b6
    b7 := if 7 < min length kElectroluxPO12FACStateLength then new_code.getD 7 0 else s.b7
    b8 := if 8 < min length kElectroluxPO12FACStateLength then new_code.getD 8 0 else s.b8
    b9 := if 9 < min length kElectroluxPO12FACStateLength then new_code.getD 9 0 else s.b9
    b10 := if 10 < min length kElectroluxPO12FACStateLength then new_code.getD 10 0 else s.b10
    b11 := if 11 < min length kElectroluxPO12FACStateLength then new_code.getD 11 0 else s.b11
    b12 := if 12 < min length kElectroluxPO12FACStateLength then new_code.getD 12 0 else s.b12
    b13 := if 13 < min length kElectroluxPO12FACStateLength then new_code.getD 13 0 else s.b13 }

/-- `IRElectroluxPO12FAC::setPower`: write the Power bit (byte 5, bit 2). -/
def setPower (s : ElectroluxPO12FProtocol) (on_ : Bool) : ElectroluxPO12FProtocol :=
  { s with b5 := setBits s.b5 2 1 (cNat on_) }

/-- `IRElectroluxPO12FAC::getPower`: read the Power bit. -/
def getPower (s : ElectroluxPO12FProtocol) : Bool :=
  cBool (getBits s.b5 2 1)

/-- `IRElectroluxPO12FAC::getMode`: read the Mode field (byte 6, bits 0-3). -/
def getMode (s : ElectroluxPO12FProtocol) : Nat :=
  getBits s.b6 0 4

/-- `IRElectroluxPO12FAC::setFan`: accept only the four enumerated
speeds; anything else coerces to FanAuto.  Writes byte 8, bits 0-2. -/
def setFan (s : ElectroluxPO12FProtocol) (speed : Nat) : ElectroluxPO12FProtocol :=
  if speed = kElectroluxPO12FACFanAuto ∨ speed = kElectroluxPO12FACFanLow ∨
     speed = kElectroluxPO12FACFanMed ∨ speed = kElectroluxPO12FACFanHigh then
    { s with b8 := setBits s.b8 0 3 speed }
  else
    { s with b8 := setBits s.b8 0 3 kElectroluxPO12FACFanAuto }

/-- `IRElectroluxPO12FAC::getFan`: read the Fan field (byte 8, bits 0-2). -/
def getFan (s : ElectroluxPO12FProtocol) : Nat :=
  getBits s.b8 0 3

/-- `IRElectroluxPO12FAC::setMode`: the Fan mode case first calls
`setFan(FanHigh)` and falls through; the five enumerated modes are
stored as-is, anything else stores Auto.  Writes byte 6, bits 0-3. -/
def setMode (s : ElectroluxPO12FProtocol) (mode : Nat) : ElectroluxPO12FProtocol :=
  if mode = kElectroluxPO12FACFan then
    let s1 := setFan s kElectroluxPO12FACFanHigh
    { s1 with b6 := setBits s1.b6 0 4 mode }
  else if mode = kElectroluxPO12FACAuto ∨ mode = kElectroluxPO12FACCool ∨
          mode = kElectroluxPO12FACHeat ∨ mode = kElectroluxPO12FACDry then
    { s with b6 := setBits s.b6 0 4 mode }
  else
    { s with b6 := setBits s.b6 0 4 kElectroluxPO12FACAuto }

/-- `IRElectroluxPO12FAC::setTemp`: clamp the Celsius argument to
[`kElectroluxPO12FACTempMin`, `kElectroluxPO12FACTempMax`], then store
`static_cast<uint8_t>(kElectroluxPO12FACTempMax - safecelsius + 3)` in
the Temp field (byte 7, bits 0-3); the cast truncates the non-negative
value, i.e. takes its floor. -/
def setTemp (s : ElectroluxPO12FProtocol) (celsius : ℚ) : ElectroluxPO12FProtocol :=
  let safecelsius := min (max celsius kElectroluxPO12FACTempMin) kElectroluxPO12FACTempMax
  { s with b7 := setBits s.b7 0 4 (Int.toNat ⌊kElectroluxPO12FACTempMax - safecelsius + 3⌋) }

/-- `IRElectroluxPO12FAC::getTemp`: return
`kElectroluxPO12FACTempMax + Temp - 3` as a float (here `ℚ`). -/
def getTemp (s : ElectroluxPO12FProtocol) : ℚ :=
  kElectroluxPO12FACTempMax + (getBits s.b7 0 4 : ℚ) - 3

/-- `IRElectroluxPO12FAC::setEcono`: when `on`, force the Fan field to
the Eco encoding; when `off`, do nothing. -/
def setEcono (s : ElectroluxPO12FProtocol) (on_ : Bool) : ElectroluxPO12FProtocol :=
  if on_ then { s with b8 := setBits s.b8 0 3 kElectroluxPO12FACFanEco } else s

/-- `IRElectroluxPO12FAC::getEcono`: true iff the Fan field equals the
Eco encoding. -/
def getEcono (s : ElectroluxPO12FProtocol) : Bool :=
  decide (getFan s = kElectroluxPO12FACFanEco)

/-- `IRElectroluxPO12FAC::setSwing`: write the Swing field (byte 8,
bits 3-5) from a bool. -/
def setSwing (s : ElectroluxPO12FProtocol) (on_ : Bool) : ElectroluxPO12FProtocol :=
  { s with b8 := setBits s.b8 3 3 (cNat on_) }

/-- `IRElectroluxPO12FAC::getSwing`: read the Swing field as a bool. -/
def getSwing (s : ElectroluxPO12FProtocol) : Bool :=
  cBool (getBits s.b8 3 3)

/-- `IRElectroluxPO12FAC::setTurbo`: write the Turbo bit (byte 6,
bit 6); when `on`, also force the Fan field to FanHigh (a direct field
write) and call `setTemp(18)`. -/
def setTurbo (s : ElectroluxPO12FProtocol) (on_ : Bool) : ElectroluxPO12FProtocol :=
  let s1 : ElectroluxPO12FProtocol := { s with b6 := setBits s.b6 6 1 (cNat on_) }
  if on_ then
    setTemp { s1 with b8 := setBits s1.b8 0 3 kElectroluxPO12FACFanHigh } 18
  else s1

/-- `IRElectroluxPO12FAC::getTurbo`: read the Turbo bit as a bool. -/
def getTurbo (s : ElectroluxPO12FProtocol) : Bool :=
  cBool (getBits s.b6 6 1)

/-- `IRElectroluxPO12FAC::setFollow`: write the Follow bit (byte 6, bit 7). -/
def setFollow (s : ElectroluxPO12FProtocol) (on_ : Bool) : ElectroluxPO12FProtocol :=
  { s with b6 := setBits s.b6 7 1 (cNat on_) }

/-- `IRElectroluxPO12FAC::getFollow`: read the Follow bit as a bool. -/
def getFollow (s : ElectroluxPO12FProtocol) : Bool :=
  cBool (getBits s.b6 7 1)

/-- `IRElectroluxPO12FAC::setOffSleepTimer`: store `hours * 6` in the
8-bit OffSleepTimer field (byte 9; the bitfield assignment reduces the
value mod 256). -/
def setOffSleepTimer (s : ElectroluxPO12FProtocol) (hours : Nat) : ElectroluxPO12FProtocol :=
  { s with b9 := setBits s.b9 0 8 (hours * 6) }

/-- `IRElectroluxPO12FAC::getOffSleepTimer`: return the raw stored
OffSleepTimer value (no conversion back to hours). -/
def getOffSleepTimer (s : ElectroluxPO12FProtocol) : Nat :=
  getBits s.b9 0 8

/-- Generic operating mode, `stdAc::opmode_t` (the members this codec
uses). -/
inductive Opmode where
  | kOff
  | kAuto
  | kCool
  | kHeat
  | kDry
  | kFan
deriving DecidableEq

/-- Generic fan speed, `stdAc::fanspeed_t` (the members this codec uses). -/
inductive Fanspeed where
  | kAuto
  | kMin
  | kLow
  | kMedium
  | kHigh
  | kMax
deriving DecidableEq

/-- Generic vertical swing, `stdAc::swingv_t` (the members this codec uses). -/
inductive Swingv where
  | kOff
  | kAuto
deriving DecidableEq

/-- Generic horizontal swing, `stdAc::swingh_t` (the members this codec
uses). -/
inductive Swingh where
  | kOff
  | kAuto
deriving DecidableEq

/-- The protocol tag `decode_type_t::ELECTROLUX_PO12F_AC`, as an opaque
numeric tag in the generic state. -/
def decodeTypeElectroluxPO12FAC : Nat := 1

/-- The generic appliance state, `stdAc::state_t` (the fields
`toCommon` assigns). -/
structure StdAcState where
  protocol : Nat
  model : Int
  power : Bool
  mode : Opmode
  celsius : Bool
  degrees : ℚ
  fanspeed : Fanspeed
  swingv : Swingv
  swingh : Swingh
  turbo : Bool
  econo : Bool
  sleep : Int
  light : Bool
  filter : Bool
  quiet : Bool
  clean : Bool
  beep : Bool
  clock : Int
deriving DecidableEq

/-- `IRElectroluxPO12FAC::toCommonMode`: native mode to generic mode. -/
def toCommonMode (mode : Nat) : Opmode :=
  if mode = kElectroluxPO12FACCool then Opmode.kCool
  else if mode = kElectroluxPO12FACHeat then Opmode.kHeat
  else if mode = kElectroluxPO12FACDry then Opmode.kDry
  else if mode = kElectroluxPO12FACFan then Opmode.kFan
  else Opmode.kAuto

/-- `IRElectroluxPO12FAC::toCommonFanSpeed`: native fan speed to
generic fan speed. -/
def toCommonFanSpeed (spd : Nat) : Fanspeed :=
  if spd = kElectroluxPO12FACFanHigh then Fanspeed.kMax
  else if spd = kElectroluxPO12FACFanMed then Fanspeed.kMedium
  else if spd = kElectroluxPO12FACFanLow then Fanspeed.kMin
  else Fanspeed.kAuto

/-- `IRElectroluxPO12FAC::convertMode`: generic mode to native mode. -/
def convertMode (mode : Opmode) : Nat :=
  match mode with
  | Opmode.kCool => kElectroluxPO12FACCool
  | Opmode.kHeat => kElectroluxPO12FACHeat
  | Opmode.kDry => kElectroluxPO12FACDry
  | Opmode.kFan => kElectroluxPO12FACFan
  | _ => kElectroluxPO12FACAuto

/-- `IRElectroluxPO12FAC::convertFan`: generic fan speed to native fan
speed. -/
def convertFan (speed : Fanspeed) : Nat :=
  match speed with
  | Fanspeed.kMin | Fanspeed.kLow => kElectroluxPO12FACFanLow
  | Fanspeed.kMedium => kElectroluxPO12FACFanMed
  | Fanspeed.kHigh | Fanspeed.kMax => kElectroluxPO12FACFanHigh
  | _ => kElectroluxPO12FACFanAuto

/-- `IRElectroluxPO12FAC::toCommon`: project the native state onto the
generic appliance state, field by field as the source assigns them. -/
def toCommon (s : ElectroluxPO12FProtocol) : StdAcState :=
  { protocol := decodeTypeElectroluxPO12FAC
    model := -1
    power := cBool (getBits s.b5 2 1)
    mode := toCommonMode (getBits s.b6 0 4)
    celsius := true
    degrees := getTemp s
    fanspeed := toCommonFanSpeed (getBits s.b8 0 3)
    swingv := if cBool (getBits s.b8 3 3) then Swingv.kAuto else Swingv.kOff
    swingh := if cBool (getBits s.b8 3 3) then Swingh.kAuto else Swingh.kOff
    turbo := cBool (getBits s.b6 6 1)
    econo := getEcono s
    sleep := (getBits s.b9 0 8 : Int)
    light := false
    filter := false
    quiet := false
    clean := false
    beep := false
    clock := -1 }

end ElectroluxPO12F

namespace ElectroluxPO12F

/-- Reading back the bits `[lo, lo+w)` just written by `setBits` yields
the written value reduced mod `2^w`, for any original byte. -/
theorem getBits_setBits_self (b lo w v : Nat) :
    getBits (setBits b lo w v) lo w = v % 2 ^ w := by
  unfold getBits setBits
  have hlo : 0 < 2 ^ lo := Nat.pos_pow_of_pos lo (by decide)
  rw [pow_add]
  rw [show b % 2 ^ lo + v % 2 ^ w * 2 ^ lo + b / (2 ^ lo * 2 ^ w) * (2 ^ lo * 2 ^ w) =
      b % 2 ^ lo + 2 ^ lo * (v % 2 ^ w + 2 ^ w * (b / (2 ^ lo * 2 ^ w))) by ring]
  rw [Nat.add_mul_div_left _ _ hlo, Nat.div_eq_of_lt (Nat.mod_lt b hlo)]
  rw [Nat.zero_add, Nat.add_mul_mod_self_left, Nat.mod_mod_of_dvd v dvd_rfl]

/-- Summing one more taken element appends the `getD` value (0 beyond
the end of the list). -/
theorem sum_take_succ_getD (l : List Nat) (n : Nat) :
    (l.take (n + 1)).sum = (l.take n).sum + l.getD n 0 := by
  induction l generalizing n with
  | nil => simp
  | cons a l ih =>
    cases n with
    | zero => simp
    | succ n => simp [List.take_succ_cons, ih n, Nat.add_assoc]

/-- The sum of `getD` over the first `n` indices is the sum of the
first `n` elements. -/
theorem range_map_getD_sum (n : Nat) (l : List Nat) :
    ((List.range n).map fun i => l.getD i 0).sum = (l.take n).sum := by
  induction n with
  | zero => simp
  | succ n ih =>
    rw [List.range_succ, List.map_append, List.sum_append, ih, sum_take_succ_getD]
    simp

end ElectroluxPO12F

namespace ElectroluxPO12F

/-- C4: after `stateReset()` (the fixed known-good default frame),
`getPower()` is true and `getMode()` is the Cool raw value (3); however
`getTemp()` on that frame returns 30.0, not the 24.0 the claim (and the
source's own "(On, Cool, 24C)" comments) state: the default frame's
Temp field is 5 and the getter computes 28 + 5 - 3 = 30. -/
theorem stateReset_eval :
    getPower stateReset = true ∧
    getMode stateReset = kElectroluxPO12FACCool ∧
    getTemp stateReset = 30 := by
  refine ⟨by decide, by decide, ?_⟩
  norm_num [getTemp, getBits, stateReset, kElectroluxPO12FACTempMax]

/-- C6: `setTurbo(true)` sets the Turbo bit and forces the Fan field to
High (5); it stores the 18-degree encoding (13) in the Temp raw field,
but a subsequent `getTemp()` returns 38.0, not 18.0, because the getter
computes 28 + 13 - 3 = 38 instead of inverting the setter. -/
theorem setTurbo_eval (s : ElectroluxPO12FProtocol) :
    getTurbo (setTurbo s true) = true ∧
    getFan (setTurbo s true) = kElectroluxPO12FACFanHigh ∧
    getBits (setTurbo s true).b7 0 4 = 13 ∧
    getTemp (setTurbo s true) = 38 := by
  have h13 : getBits (setTurbo s true).b7 0 4 = 13 := by
    norm_num [setTurbo, setTemp, getBits_setBits_self, kElectroluxPO12FACTempMax,
      kElectroluxPO12FACTempMin, show Int.toNat 13 = 13 from rfl]
  refine ⟨?_, ?_, h13, ?_⟩
  · norm_num [setTurbo, setTemp, getTurbo, cBool, cNat, getBits_setBits_self]
  · norm_num [setTurbo, setTemp, getFan, kElectroluxPO12FACFanHigh, getBits_setBits_self]
  · rw [getTemp, h13]
    norm_num [kElectroluxPO12FACTempMax]

/-- C7: in every state, `setEcono(true)` makes `getEcono()` true (the
Fan field holds the Eco encoding 1); a following `setEcono(false)` is a
no-op on the frame - indeed `setEcono(false)` leaves any state
unchanged - so `getFan()` still reads Eco afterwards. -/
theorem setEcono_spec (s : ElectroluxPO12FProtocol) :
    getEcono (setEcono s true) = true ∧
    setEcono (setEcono s true) false = setEcono s true ∧
    getFan (setEcono (setEcono s true) false) = kElectroluxPO12FACFanEco ∧
    setEcono s false = s := by
  refine ⟨?_, rfl, ?_, rfl⟩
  · simp [setEcono, getEcono, getFan, getBits_setBits_self, kElectroluxPO12FACFanEco]
  · simp [setEcono, getFan, getBits_setBits_self, kElectroluxPO12FACFanEco]

/-- C9: `toCommon()` projects the state without changing it: power,
mode, temperature (Celsius) and fan speed agree with the native
getters, the two generic swing fields always agree with each other
(both derive from the single Swing field), and the unsupported fields
are fixed sentinels. -/
theorem toCommon_spec (s : ElectroluxPO12FProtocol) :
    (toCommon s).power = getPower s ∧
    (toCommon s).mode = toCommonMode (getMode s) ∧
    (toCommon s).celsius = true ∧
    (toCommon s).degrees = getTemp s ∧
    (toCommon s).fanspeed = toCommonFanSpeed (getFan s) ∧
    ((toCommon s).swingv = Swingv.kAuto ↔ (toCommon s).swingh = Swingh.kAuto) ∧
    (toCommon s).turbo = getTurbo s ∧
    (toCommon s).econo = getEcono s ∧
    (toCommon s).light = false ∧
    (toCommon s).filter = false ∧
    (toCommon s).quiet = false ∧
    (toCommon s).clean = false ∧
    (toCommon s).beep = false ∧
    (toCommon s).clock = -1 ∧
    (toCommon s).model = -1 := by
  unfold toCommon getPower getMode getFan getTurbo
  refine ⟨rfl, rfl, rfl, rfl, rfl, ?_, rfl, rfl, rfl, rfl, rfl, rfl, rfl, rfl, rfl⟩
  cases cBool (getBits s.b8 3 3) <;> simp

/-- C10: `setOffSleepTimer(h)` stores `h * 6` reduced mod 256 in the
8-bit OffSleepTimer field and `getOffSleepTimer()` returns that raw
stored value unchanged; concretely, 3 hours reads back as 18. -/
theorem setOffSleepTimer_spec :
    (∀ (s : ElectroluxPO12FProtocol) (hours : Nat),
      getOffSleepTimer (setOffSleepTimer s hours) = hours * 6 % 256) ∧
    getOffSleepTimer (setOffSleepTimer stateReset 3) = 18 := by
  refine ⟨fun s hours => ?_, by decide⟩
  simpa using getBits_setBits_self s.b9 0 8 (hours * 6)

end ElectroluxPO12F

namespace ElectroluxPO12F

/-- C5: `setMode(m)` stores `m` when `m` is one of the five enumerated
raw modes (Heat 1, Dry 2, Cool 3, Fan 7, Auto 8) and Auto (8)
otherwise; selecting Fan mode additionally forces the Fan speed field
to High (5). -/
theorem setMode_spec (s : ElectroluxPO12FProtocol) (mode : Nat) :
    (getMode (setMode s mode) =
      if mode = kElectroluxPO12FACHeat ∨ mode = kElectroluxPO12FACDry ∨
         mode = kElectroluxPO12FACCool ∨ mode = kElectroluxPO12FACFan ∨
         mode = kElectroluxPO12FACAuto then mode else kElectroluxPO12FACAuto) ∧
    (mode = kElectroluxPO12FACFan → getFan (setMode s mode) = kElectroluxPO12FACFanHigh) := by
  constructor
  · by_cases h7 : mode = kElectroluxPO12FACFan
    · subst h7
      simp [setMode, setFan, getMode, getBits_setBits_self, kElectroluxPO12FACFan,
        kElectroluxPO12FACHeat, kElectroluxPO12FACDry, kElectroluxPO12FACCool,
        kElectroluxPO12FACAuto]
    · by_cases hk : mode = kElectroluxPO12FACAuto ∨ mode = kElectroluxPO12FACCool ∨
          mode = kElectroluxPO12FACHeat ∨ mode = kElectroluxPO12FACDry
      · have hlt : mode % 16 = mode := by
          rcases hk with h | h | h | h <;> subst h <;> decide
        simp only [setMode, if_neg h7, if_pos hk, getMode, getBits_setBits_self]
        rw [if_pos (by tauto)]
        exact hlt
      · have hcond : ¬(mode = kElectroluxPO12FACHeat ∨ mode = kElectroluxPO12FACDry ∨
            mode = kElectroluxPO12FACCool ∨ mode = kElectroluxPO12FACFan ∨
            mode = kElectroluxPO12FACAuto) := by tauto
        simp only [setMode, if_neg h7, if_neg hk, getMode, getBits_setBits_self]
        rw [if_neg hcond]
        decide
  · intro h7
    subst h7
    simp [setMode, setFan, getFan, getBits_setBits_self, kElectroluxPO12FACFan,
      kElectroluxPO12FACFanAuto, kElectroluxPO12FACFanLow, kElectroluxPO12FACFanMed,
      kElectroluxPO12FACFanHigh]

/-- C5 witness: instantiated at the default state with Fan mode (7):
the mode sticks and the fan speed is forced to High. -/
theorem setMode_spec_witness :
    getMode (setMode stateReset 7) = 7 ∧ getFan (setMode stateReset 7) = kElectroluxPO12FACFanHigh := by
  have h := setMode_spec stateReset 7
  refine ⟨?_, h.2 (by decide)⟩
  rw [h.1]
  decide

/-- Byte `i` of the frame after `setRaw` is the source byte when
`i < min(length, 14)` and the old frame byte otherwise. -/
theorem raw_setRaw_getD (s : ElectroluxPO12FProtocol) (new_code : List Nat)
    (length i : Nat) (hi : i < 14) :
    (raw (setRaw s new_code length)).getD i 0 =
      if i < min length kElectroluxPO12FACStateLength then new_code.getD i 0
      else (raw s).getD i 0 := by
  interval_cases i <;>
    simp only [setRaw, raw, List.getD_cons_zero, List.getD_cons_succ]

/-- C8: `setRaw(buffer, length)` copies exactly
`min(length, 14)` bytes from the source into the frame starting at
byte 0, and every frame byte at a later index keeps the value it had
before the call; no checksum or range validation happens. -/
theorem setRaw_spec (s : ElectroluxPO12FProtocol) (new_code : List Nat) (length : Nat) :
    (∀ i, i < min length kElectroluxPO12FACStateLength →
      (raw (setRaw s new_code length)).getD i 0 = new_code.getD i 0) ∧
    (∀ i, min length kElectroluxPO12FACStateLength ≤ i → i < kElectroluxPO12FACStateLength →
      (raw (setRaw s new_code length)).getD i 0 = (raw s).getD i 0) := by
  constructor
  · intro i hi
    have hi14 : i < 14 := lt_of_lt_of_le hi
      (le_trans (min_le_right _ _) (by norm_num [kElectroluxPO12FACStateLength]))
    rw [raw_setRaw_getD s new_code length i hi14, if_pos hi]
  · intro i hi hi14
    rw [kElectroluxPO12FACStateLength] at hi14
    rw [raw_setRaw_getD s new_code length i hi14, if_neg (not_lt.mpr hi)]

/-- C8 witness: copying 2 bytes of a 2-byte buffer into the default
state overwrites byte 1 and keeps byte 5. -/
theorem setRaw_spec_witness :
    (1 < min 2 kElectroluxPO12FACStateLength ∧
      (raw (setRaw stateReset [9, 7] 2)).getD 1 0 = ([9, 7] : List Nat).getD 1 0) ∧
    (min 2 kElectroluxPO12FACStateLength ≤ 5 ∧ 5 < kElectroluxPO12FACStateLength ∧
      (raw (setRaw stateReset [9, 7] 2)).getD 5 0 = (raw stateReset).getD 5 0) :=
  ⟨⟨by decide, (setRaw_spec stateReset [9, 7] 2).1 1 (by decide)⟩,
   ⟨by decide, by decide, (setRaw_spec stateReset [9, 7] 2).2 5 (by decide) (by decide)⟩⟩

end ElectroluxPO12F

namespace ElectroluxPO12F

/-- C2: `calcChecksum(buffer, length)` returns the sum modulo 256 of the
bytes at indices 0 through `length - 2` (0 when `length` is 0), and
`validChecksum(buffer, length)` is true iff `length > 1` and the byte at
index `length - 1` equals `calcChecksum(buffer, length)`. -/
theorem calcChecksum_spec (state : List Nat) (length : Nat) :
    calcChecksum state length =
      (if length = 0 then 0
       else ((List.range (length - 1)).map fun i => state.getD i 0).sum % 256) ∧
    (validChecksum state length = true ↔
      1 < length ∧ state.getD (length - 1) 0 = calcChecksum state length) := by
  constructor
  · by_cases h0 : length = 0
    · simp [h0, calcChecksum]
    · simp only [calcChecksum, sumBytes, if_neg h0, if_pos h0, ne_eq, not_false_iff]
      rw [range_map_getD_sum]
  · simp [validChecksum]

/-- C1: for every state whose `Sum` byte is a byte value, the frame
returned by `getRaw()` has its last byte (byte 13) equal to the sum
modulo 256 of bytes 0 through 12 of that same returned frame, and
`validChecksum` holds of it with length 14. -/
theorem getRaw_valid (s : ElectroluxPO12FProtocol) (h : s.b13 < 256) :
    (raw (getRaw s)).getD 13 0 =
      ((List.range 13).map fun i => (raw (getRaw s)).getD i 0).sum % 256 ∧
    validChecksum (raw (getRaw s)) 14 = true := by
  have hraw : raw (getRaw s) =
      [s.b0, s.b1, s.b2, s.b3, s.b4, s.b5, s.b6, s.b7, s.b8, s.b9, s.b10, s.b11, s.b12,
       setBits s.b13 0 8 ((s.b0 + s.b1 + s.b2 + s.b3 + s.b4 + s.b5 + s.b6 + s.b7 + s.b8 +
         s.b9 + s.b10 + s.b11 + s.b12) % 256)] := by
    simp [getRaw, checksum, raw, kElectroluxPO12FACStateLength, calcChecksum, sumBytes]
    ring_nf
  rw [hraw]
  constructor
  · simp [List.range_succ, setBits]
    omega
  · simp [validChecksum, calcChecksum, sumBytes, setBits]
    omega

/-- C1 witness: loading the shipped default state bytes via `setRaw`
and then calling `getRaw()` yields a frame accepted by
`validChecksum`. -/
theorem getRaw_valid_witness :
    (setRaw stateReset kElectroluxPO12FACDefaultState 14).b13 < 256 ∧
    validChecksum (raw (getRaw (setRaw stateReset kElectroluxPO12FACDefaultState 14))) 14 = true :=
  ⟨by decide,
   (getRaw_valid (setRaw stateReset kElectroluxPO12FACDefaultState 14) (by decide)).2⟩

/-- C3 counterexample: `setTemp(24)` followed by `getTemp()` returns
32.0, not `clamp(24, 18, 28) = 24`: the getter formula `28 + raw - 3`
does not invert the setter formula `raw = 28 - celsius + 3`. -/
theorem setTemp_getTemp_cex :
    getTemp (setTemp stateReset 24) = 32 ∧
    getTemp (setTemp stateReset 24) ≠
      min (max (24 : ℚ) kElectroluxPO12FACTempMin) kElectroluxPO12FACTempMax := by
  have h : getTemp (setTemp stateReset 24) = 32 := by
    norm_num [getTemp, getBits, setTemp, setBits, stateReset, kElectroluxPO12FACTempMax,
      kElectroluxPO12FACTempMin, show Int.toNat 7 = 7 from rfl]
  refine ⟨h, ?_⟩
  rw [h]
  norm_num [kElectroluxPO12FACTempMin, kElectroluxPO12FACTempMax]

/-- C3 (amended): `setTemp(x)` stores
`floor(28 - clamp(x, 18, 28) + 3)` in the Temp field, exactly the
setter formula of the claim, but a following `getTemp()` - which
computes `28 + raw - 3` as the claim says - returns
`56 - ceil(clamp(x, 18, 28))`, i.e. `56 - clamp(x, 18, 28)` for
whole-degree inputs, not the clamped Celsius value itself. -/
theorem getTemp_setTemp_amended (s : ElectroluxPO12FProtocol) (celsius : ℚ) :
    getBits (setTemp s celsius).b7 0 4 =
      Int.toNat ⌊kElectroluxPO12FACTempMax -
        min (max celsius kElectroluxPO12FACTempMin) kElectroluxPO12FACTempMax + 3⌋ ∧
    getTemp (setTemp s celsius) =
      56 - (⌈min (max celsius kElectroluxPO12FACTempMin) kElectroluxPO12FACTempMax⌉ : ℚ) := by
  set safe := min (max celsius kElectroluxPO12FACTempMin) kElectroluxPO12FACTempMax with hsafe
  have h18 : (18 : ℚ) ≤ safe := by
    rw [hsafe]
    refine le_min (le_trans ?_ (le_max_right _ _)) ?_ <;>
      norm_num [kElectroluxPO12FACTempMin, kElectroluxPO12FACTempMax]
  have h28 : safe ≤ (28 : ℚ) := by
    rw [hsafe]
    exact le_trans (min_le_right _ _) (by norm_num [kElectroluxPO12FACTempMax])
  have harg : kElectroluxPO12FACTempMax - safe + 3 = (31 : ℚ) - safe := by
    rw [kElectroluxPO12FACTempMax]; ring
  have hfl : ⌊kElectroluxPO12FACTempMax - safe + 3⌋ = 31 - ⌈safe⌉ := by
    rw [harg, show (31 : ℚ) - safe = ((31 : ℤ) : ℚ) + -safe by push_cast; ring,
      Int.floor_int_add, Int.floor_neg]
    ring
  have hnonneg : (0 : ℤ) ≤ ⌊kElectroluxPO12FACTempMax - safe + 3⌋ := by
    rw [hfl]
    have : ⌈safe⌉ ≤ 28 := by
      rw [show (28 : ℤ) = ⌈(28 : ℚ)⌉ by norm_num]
      exact Int.ceil_le_ceil h28
    omega
  have hle : ⌊kElectroluxPO12FACTempMax - safe + 3⌋ ≤ 13 := by
    rw [hfl]
    have : (18 : ℤ) ≤ ⌈safe⌉ := by
      rw [show (18 : ℤ) = ⌈(18 : ℚ)⌉ by norm_num]
      exact Int.ceil_le_ceil h18
    omega
  have hmod : Int.toNat ⌊kElectroluxPO12FACTempMax - safe + 3⌋ % 16 =
      Int.toNat ⌊kElectroluxPO12FACTempMax - safe + 3⌋ := by
    apply Nat.mod_eq_of_lt
    omega
  constructor
  · rw [setTemp, getBits_setBits_self]
    simpa using hmod
  · rw [getTemp, setTemp]
    simp only [getBits_setBits_self]
    rw [show (2 : Nat) ^ 4 = 16 from rfl, hmod]
    rw [show ((Int.toNat ⌊kElectroluxPO12FACTempMax - safe + 3⌋ : Nat) : ℚ) =
        ((⌊kElectroluxPO12FACTempMax - safe + 3⌋ : ℤ) : ℚ) by
      exact_mod_cast congrArg (fun z : ℤ => (z : ℚ)) (Int.toNat_of_nonneg hnonneg)]
    rw [hfl, kElectroluxPO12FACTempMax]
    push_cast
    ring

end ElectroluxPO12F
